import Mathlib

/-!
Verification of the SQL query safety validator and pagination rewriter of the
postgres-mcp server. The definitions below are a shallow embedding of the
TypeScript code in src/tools/query.ts (shipped here as src/src/tools/schemas.ts):
the constants come from config.ts (default configuration values), and the
functions mirror validateSqlSafety, isReadOnlyQuery, isSingleRowAggregate,
applyPagination, validateParameters and the pre-execution and post-execution
control flow of queryTool.

JavaScript string primitives (trim, toUpperCase, includes, startsWith,
split on whitespace, replace of a trailing semicolon run) are modelled as
executable functions over the character lists of Lean strings. In the two
error messages that quote the rejected operation name, the source surrounds
the name with single-quote characters; the model drops those two quote
characters and keeps the rest of the text verbatim, which is immaterial to
every property proved below (they concern the operation name and the phrase
"not allowed" appearing in the message).
-/

/-- Characters treated as whitespace by the JavaScript string functions used in
the source (trim, split on the whitespace regex); the source only ever meets
the ASCII ones. -/
def isJsWhitespace (c : Char) : Bool :=
  c = ' ' || c = '\t' || c = '\n' || c = '\r' || c = '\x0b' || c = '\x0c'

/-- Model of JavaScript String.prototype.trim. -/
def jsTrim (s : String) : String :=
  String.mk (((s.toList.dropWhile isJsWhitespace).reverse.dropWhile isJsWhitespace).reverse)

/-- Model of JavaScript String.prototype.toUpperCase on the ASCII text the
source handles. -/
def jsToUpperCase (s : String) : String :=
  String.mk (s.toList.map Char.toUpper)

/-- listStartsWith pat l is true when pat is an initial segment of l. -/
def listStartsWith : List Char → List Char → Bool
  | [], _ => true
  | _ :: _, [] => false
  | a :: as, b :: bs => a = b && listStartsWith as bs

/-- containsSub pat l is true when pat occurs contiguously inside l. -/
def containsSub (pat : List Char) : List Char → Bool
  | [] => listStartsWith pat []
  | c :: rest => listStartsWith pat (c :: rest) || containsSub pat rest

/-- Model of JavaScript String.prototype.includes (substring search). -/
def jsIncludes (s pat : String) : Bool :=
  containsSub pat.toList s.toList

/-- Model of JavaScript String.prototype.startsWith. -/
def jsStartsWith (s pat : String) : Bool :=
  listStartsWith pat.toList s.toList

/-- Model of upperSql.split on whitespace, index 0: the leading run of
non-whitespace characters (the source applies it to trimmed text). -/
def jsFirstWord (s : String) : String :=
  String.mk (s.toList.takeWhile (fun c => !isJsWhitespace c))

/-- Model of s.replace of a trailing run of semicolons by the empty string. -/
def stripTrailingSemis (s : String) : String :=
  String.mk ((s.toList.reverse.dropWhile (fun c => c = ';')).reverse)

/-- The cleanedSql of applyPagination and of the write branch of queryTool:
trim, then strip trailing semicolons. -/
def cleanSql (s : String) : String :=
  stripTrailingSemis (jsTrim s)

/-- Model of the JavaScript expression v or-else dflt on an optional
non-negative number: undefined and 0 are falsy. -/
def jsOr (v : Option Nat) (dflt : Nat) : Nat :=
  match v with
  | some n => if n = 0 then dflt else n
  | none => dflt

/-- Model of JavaScript falsiness of an optional non-negative number. -/
def jsFalsy (v : Option Nat) : Bool :=
  match v with
  | some n => n = 0
  | none => true

/-- config.query.maxPageSize, default 500 (config.ts). -/
def MAX_PAGE_SIZE : Nat := 500

/-- config.query.defaultPageSize, default 100 (config.ts). -/
def DEFAULT_PAGE_SIZE : Nat := 100

/-- config.query.autoLimit, default true (config.ts). -/
def AUTO_LIMIT : Bool := true

/-- config.query.maxPayloadSize, default 5 MiB (config.ts). -/
def MAX_PAYLOAD_SIZE : Nat := 5 * 1024 * 1024

/-- isSingleRowAggregate from query.ts: an aggregate function call appears in
the uppercased text and GROUP BY does not. -/
def isSingleRowAggregate (upperSql : String) : Bool :=
  (jsIncludes upperSql "COUNT(" || jsIncludes upperSql "SUM(" ||
   jsIncludes upperSql "AVG(" || jsIncludes upperSql "MAX(" ||
   jsIncludes upperSql "MIN(") && !(jsIncludes upperSql "GROUP BY")

/-- The record returned by applyPagination. -/
structure PaginationResult where
  sql : String
  actualPageSize : Nat
  actualOffset : Nat
deriving DecidableEq, Repr

/-- applyPagination from query.ts. The page size and offset are the optional
non-negative integers admitted by the input schema. The branches are, in the
order of the source: text already holding LIMIT or OFFSET is returned cleaned
and unmodified with the requested (or default) metadata; otherwise the page
size is capped at MAX_PAGE_SIZE, single-row aggregates and the auto-limit
opt-out return the cleaned text unmodified, and every other query gets a LIMIT
clause and, when the effective offset is positive, an OFFSET clause. -/
def applyPagination (sqlString : String) (pageSize offset : Option Nat) : PaginationResult :=
  if jsIncludes (jsToUpperCase (cleanSql sqlString)) "LIMIT"
      || jsIncludes (jsToUpperCase (cleanSql sqlString)) "OFFSET" then
    { sql := cleanSql sqlString
      actualPageSize := jsOr pageSize DEFAULT_PAGE_SIZE
      actualOffset := jsOr offset 0 }
  else if isSingleRowAggregate (jsToUpperCase (cleanSql sqlString)) then
    { sql := cleanSql sqlString
      actualPageSize := min (jsOr pageSize DEFAULT_PAGE_SIZE) MAX_PAGE_SIZE
      actualOffset := jsOr offset 0 }
  else if !AUTO_LIMIT && jsFalsy pageSize then
    { sql := cleanSql sqlString
      actualPageSize := min (jsOr pageSize DEFAULT_PAGE_SIZE) MAX_PAGE_SIZE
      actualOffset := jsOr offset 0 }
  else if 0 < jsOr offset 0 then
    { sql := cleanSql sqlString ++ " LIMIT "
        ++ toString (min (jsOr pageSize DEFAULT_PAGE_SIZE) MAX_PAGE_SIZE)
        ++ " OFFSET " ++ toString (jsOr offset 0)
      actualPageSize := min (jsOr pageSize DEFAULT_PAGE_SIZE) MAX_PAGE_SIZE
      actualOffset := jsOr offset 0 }
  else
    { sql := cleanSql sqlString ++ " LIMIT "
        ++ toString (min (jsOr pageSize DEFAULT_PAGE_SIZE) MAX_PAGE_SIZE)
      actualPageSize := min (jsOr pageSize DEFAULT_PAGE_SIZE) MAX_PAGE_SIZE
      actualOffset := jsOr offset 0 }

/-- The access mode of the process: READ_ONLY environment variable, default
read-only; isReadOnlyMode in query.ts tests READ_ONLY against "false". -/
inductive AccessMode where
  | readOnly
  | readWrite
deriving DecidableEq, Repr

/-- isReadOnlyMode from query.ts, with the mode made an explicit argument. -/
def isReadOnlyMode (mode : AccessMode) : Bool :=
  match mode with
  | .readOnly => true
  | .readWrite => false

/-- The column payload of a column_ref node of the node-sql-parser syntax
tree, as inspected by validateSqlSafety: the source reads
left.column.expr when present and otherwise left.column itself. A plain
column name is a string; a double-quoted identifier is wrapped as an expr
node of type double_quote_string carrying a value; any other wrapped node is
never matched by the checks and is collapsed into one constructor. -/
inductive ColumnSpec where
  | name (s : String)
  | exprDoubleQuote (value : String)
  | exprOther
deriving DecidableEq, Repr

/-- The expression nodes of the parse tree that validateSqlSafety inspects in
a WHERE clause; every node shape it never matches is Expr.other. -/
inductive Expr where
  | bool (value : Bool)
  | number (value : Int)
  | singleQuoteString (value : String)
  | doubleQuoteString (value : String)
  | columnRef (column : ColumnSpec)
  | binaryExpr (operator : String) (left right : Expr)
  | other
deriving DecidableEq, Repr

/-- One parsed statement: its type tag (node-sql-parser emits lowercase tags
such as select or update) and its where clause; none models an absent or null
where property. -/
structure Statement where
  type : String
  «where» : Option Expr
deriving DecidableEq, Repr

/-- The value returned by sqlParser.astify: one syntax tree or an array of
them; the source normalizes with Array.isArray. -/
inductive AstResult where
  | single (stmt : Statement)
  | multiple (stmts : List Statement)
deriving DecidableEq, Repr

/-- The normalization statements = Array.isArray(ast) ? ast : [ast]. -/
def toStatementList : AstResult → List Statement
  | .single stmt => [stmt]
  | .multiple stmts => stmts

/-- The record returned by validateSqlSafety. -/
structure ValidationResult where
  isValid : Bool
  error : Option String
deriving DecidableEq, Repr

/-- DANGEROUS_OPERATIONS from query.ts. -/
def DANGEROUS_OPERATIONS : List String :=
  ["DROP", "CREATE", "ALTER", "TRUNCATE", "GRANT", "REVOKE", "VACUUM",
   "ANALYZE", "CLUSTER", "REINDEX", "COPY", "BACKUP", "RESTORE", "ATTACH",
   "DETACH", "PRAGMA"]

/-- The trivial WHERE clause detection of validateSqlSafety for UPDATE and
DELETE statements, matching the source checks in order: a bool node with
value true; any number node; a binary equality whose two sides are equal
number literals, equal single-quoted string literals, or column references
that are both the same double-quoted identifier or both the same plain
column name. -/
def isTrivialWhere (w : Expr) : Bool :=
  match w with
  | .bool value => value
  | .number _ => true
  | .binaryExpr operator left right =>
    if operator = "=" then
      match left, right with
      | .number lv, .number rv => lv = rv
      | .singleQuoteString lv, .singleQuoteString rv => lv = rv
      | .columnRef lc, .columnRef rc =>
        match lc, rc with
        | .exprDoubleQuote lv, .exprDoubleQuote rv => lv = rv
        | .name ln, .name rn => ln = rn
        | _, _ => false
      | _, _ => false
    else false
  | _ => false

/-- The per-statement body of the validation loop of validateSqlSafety:
dangerous statement types are rejected; in read-only mode only SELECT, WITH
and EXPLAIN pass; in write mode UPDATE and DELETE must carry a non-trivial
WHERE clause. -/
def validateStatement (mode : AccessMode) (statement : Statement) : ValidationResult :=
  if DANGEROUS_OPERATIONS.contains (jsToUpperCase statement.type) then
    { isValid := false
      error := some ("Dangerous operation " ++ jsToUpperCase statement.type ++ " is not allowed") }
  else if isReadOnlyMode mode then
    if ["SELECT", "WITH", "EXPLAIN"].contains (jsToUpperCase statement.type) then
      { isValid := true, error := none }
    else
      { isValid := false
        error := some "Only SELECT, WITH, and EXPLAIN queries are allowed in read-only mode" }
  else if jsToUpperCase statement.type = "UPDATE" || jsToUpperCase statement.type = "DELETE" then
    match statement.«where» with
    | none =>
      { isValid := false
        error := some (jsToUpperCase statement.type ++ " operations must include a WHERE clause") }
    | some w =>
      if isTrivialWhere w then
        { isValid := false
          error := some (jsToUpperCase statement.type ++ " operations cannot use trivial WHERE clauses like WHERE 1=1 or WHERE TRUE") }
      else
        { isValid := true, error := none }
  else
    { isValid := true, error := none }

/-- The validation loop of validateSqlSafety: the first failing statement
decides; an empty list (and a list of passing statements) is valid. -/
def validateStatements (mode : AccessMode) : List Statement → ValidationResult
  | [] => { isValid := true, error := none }
  | statement :: rest =>
    let r := validateStatement mode statement
    if r.isValid then validateStatements mode rest else r

/-- validateSqlSafety from query.ts, with the external parser
(sqlParser.astify, from the node-sql-parser package) passed as an oracle:
none models a parse exception. The early returns are, in source order: the
falsy-string guard, the empty-after-trim guard, the dangerous leading
keyword, EXPLAIN, MERGE and UPSERT, parse, and the per-statement loop. -/
def validateSqlSafety (astify : String → Option AstResult) (mode : AccessMode)
    (sqlString : String) : ValidationResult :=
  if sqlString = "" then
    { isValid := false, error := some "SQL query is required and must be a string" }
  else if jsTrim sqlString = "" then
    { isValid := false, error := some "SQL query cannot be empty" }
  else
    if DANGEROUS_OPERATIONS.contains (jsFirstWord (jsToUpperCase (jsTrim sqlString))) then
      { isValid := false
        error := some ("Dangerous operation "
          ++ jsFirstWord (jsToUpperCase (jsTrim sqlString)) ++ " is not allowed") }
    else if jsFirstWord (jsToUpperCase (jsTrim sqlString)) = "EXPLAIN" then
      { isValid := true, error := none }
    else if jsFirstWord (jsToUpperCase (jsTrim sqlString)) = "MERGE"
        || jsFirstWord (jsToUpperCase (jsTrim sqlString)) = "UPSERT" then
      if isReadOnlyMode mode then
        { isValid := false
          error := some "Only SELECT, WITH, and EXPLAIN queries are allowed in read-only mode" }
      else
        { isValid := false
          error := some "MERGE and UPSERT operations are not currently supported" }
    else
      match astify (jsTrim sqlString) with
      | none =>
        { isValid := false, error := some "Invalid SQL syntax - unable to parse query" }
      | some ast => validateStatements mode (toStatementList ast)

/-- isReadOnlyQuery from query.ts. -/
def isReadOnlyQuery (sqlString : String) : Bool :=
  jsStartsWith (jsToUpperCase (jsTrim sqlString)) "SELECT" ||
  jsStartsWith (jsToUpperCase (jsTrim sqlString)) "WITH" ||
  jsStartsWith (jsToUpperCase (jsTrim sqlString)) "EXPLAIN"

/-- A JavaScript number as the sanitizer observes it: a finite value, or one
of the non-finite values rejected by Number.isFinite. -/
inductive JSNumber where
  | finite (value : Int)
  | nan
  | posInf
  | negInf
deriving DecidableEq, Repr

/-- An untyped JavaScript value arriving in the parameters array, by the
typeof classes the sanitizer distinguishes. -/
inductive JSValue where
  | null
  | bool (b : Bool)
  | num (n : JSNumber)
  | str (s : String)
  | obj
  | arr
  | func
  | undef
deriving DecidableEq, Repr

/-- typeof param tests of validateParameters. -/
def typeofIsString : JSValue → Bool
  | .str _ => true
  | _ => false

def typeofIsNumber : JSValue → Bool
  | .num _ => true
  | _ => false

def typeofIsBoolean : JSValue → Bool
  | .bool _ => true
  | _ => false

def isJsNull : JSValue → Bool
  | .null => true
  | _ => false

/-- Number.isFinite as used in validateParameters (only reached on numbers). -/
def jsNumberIsFinite : JSValue → Bool
  | .num (.finite _) => true
  | _ => false

/-- validateParameters from query.ts: the first offending element decides;
none models the null return (all parameters acceptable). -/
def validateParameters : List JSValue → Option String
  | [] => none
  | param :: rest =>
    if !isJsNull param && !typeofIsString param && !typeofIsNumber param
        && !typeofIsBoolean param then
      some "Invalid parameter type - only string, number, boolean, and null are allowed"
    else if typeofIsNumber param && !jsNumberIsFinite param then
      some "Invalid numeric parameter - must be finite number"
    else
      validateParameters rest

/-- The scalar shape of the data model: null, boolean, finite number or
string. This is the spec-side predicate the sanitizer is claimed to enforce. -/
def isScalarJS : JSValue → Bool
  | .null => true
  | .bool _ => true
  | .num (.finite _) => true
  | .str _ => true
  | _ => false

/-- The validated input of queryTool (the fields of QueryInputSchema after
input validation: sql, optional parameters, optional pageSize, optional
offset). -/
structure QueryInput where
  sql : String
  parameters : Option (List JSValue)
  pageSize : Option Nat
  offset : Option Nat
deriving DecidableEq, Repr

/-- What queryTool decides to do before touching the connection pool: reject
with an error, or send a read-only query (paginated) or a write query to
pool.query. -/
inductive QueryPlan where
  | reject (error : String)
  | executeReadOnly (sql : String) (params : List JSValue)
      (actualPageSize actualOffset : Nat)
  | executeWrite (sql : String) (params : List JSValue)
deriving DecidableEq, Repr

/-- True exactly on the plans that send SQL to the execution layer. -/
def isExecutePlan : QueryPlan → Bool
  | .reject _ => false
  | .executeReadOnly _ _ _ _ => true
  | .executeWrite _ _ => true

/-- The pre-execution control flow of queryTool from query.ts, after input
shape validation: SQL safety validation rejects first; then the parameters
(defaulted to the empty array) are sanitized when non-empty; then a read-only
query is paginated and sent, and any other query is sent with trailing
semicolons stripped. -/
def queryToolPlan (astify : String → Option AstResult) (mode : AccessMode)
    (input : QueryInput) : QueryPlan :=
  let sqlValidation := validateSqlSafety astify mode input.sql
  if !sqlValidation.isValid then
    .reject (sqlValidation.error.getD "")
  else
    let trimmedSql := jsTrim input.sql
    let params := input.parameters.getD []
    let paramError := if 0 < params.length then validateParameters params else none
    match paramError with
    | some e => .reject e
    | none =>
      if isReadOnlyQuery trimmedSql then
        let paginated := applyPagination trimmedSql input.pageSize input.offset
        .executeReadOnly paginated.sql params paginated.actualPageSize paginated.actualOffset
      else
        .executeWrite (stripTrailingSemis trimmedSql) params

/-- Rendering of bytes div 1048576 with two decimal places, modelling the
JavaScript expression (bytes / (1024 * 1024)).toFixed(2) on the byte counts
involved (rounding to the nearest hundredth, halves up). -/
def toFixed2MB (bytes : Nat) : String :=
  let hundredths := (bytes * 200 + 1048576) / 2097152
  toString (hundredths / 100) ++ "." ++
    (if hundredths % 100 < 10 then "0" else "") ++ toString (hundredths % 100)

/-- The oversized payload message built by queryTool. -/
def payloadTooLargeMessage (payloadSize : Nat) : String :=
  "Query result payload (" ++ toFixed2MB payloadSize ++
    "MB) exceeds maximum allowed size (" ++ toFixed2MB MAX_PAYLOAD_SIZE ++
    "MB). Please reduce pageSize or add more specific WHERE conditions to limit results."

/-- What the read-only success path of queryTool returns to the caller. -/
inductive QueryOutcome where
  | errorOut (error : String)
  | rowsOut (rowCount : Nat) (hasMore : Bool) (pageSize offset : Nat)
deriving DecidableEq, Repr

/-- The post-execution payload check of the read-only branch of queryTool:
payloadSize is the byte length of the serialized row set and rowCount the
number of rows; an oversized payload becomes an error carrying no rows and
no row count, and otherwise the rows are returned with the pagination
metadata, hasMore being rowCount equal to the effective page size. -/
def governReadOnlyResult (payloadSize rowCount actualPageSize actualOffset : Nat) :
    QueryOutcome :=
  if MAX_PAYLOAD_SIZE < payloadSize then
    .errorOut (payloadTooLargeMessage payloadSize)
  else
    .rowsOut rowCount (rowCount = actualPageSize) actualPageSize actualOffset

/-- Substring containment, used to state that an error message contains a
given phrase. -/
def containsStr (s sub : String) : Prop :=
  ∃ pre post, s = pre ++ sub ++ post

/-- The guards a SQL text must pass for validateSqlSafety to reach the
structural parse: non-empty, non-blank, leading keyword neither dangerous nor
EXPLAIN, MERGE or UPSERT. -/
def reachesParse (s : String) : Prop :=
  s ≠ "" ∧ jsTrim s ≠ "" ∧
  DANGEROUS_OPERATIONS.contains (jsFirstWord (jsToUpperCase (jsTrim s))) = false ∧
  jsFirstWord (jsToUpperCase (jsTrim s)) ≠ "EXPLAIN" ∧
  jsFirstWord (jsToUpperCase (jsTrim s)) ≠ "MERGE" ∧
  jsFirstWord (jsToUpperCase (jsTrim s)) ≠ "UPSERT"

instance (s : String) : Decidable (reachesParse s) := by
  unfold reachesParse; infer_instance

/-- A parse oracle on which every parse attempt fails, for exercising the
paths that never consult the parser and the unparseable path. -/
def parseNone : String → Option AstResult := fun _ => none

/-- Parse oracle reflecting the node-sql-parser output on the two-statement
batch "SELECT 1; SELECT 2": astify returns an array of two select syntax
trees without where clauses. -/
def astifyBatch : String → Option AstResult := fun s =>
  if s = "SELECT 1; SELECT 2" then
    some (.multiple [{ type := "select", «where» := none },
                     { type := "select", «where» := none }])
  else none

/-- The update statement node-sql-parser produces for
"UPDATE users SET age=30 WHERE 1=1": type update, where a binary equality of
the number literal 1 with itself. -/
def updateWhereOneEqOne : Statement :=
  { type := "update", «where» := some (.binaryExpr "=" (.number 1) (.number 1)) }

/-- Parse oracle reflecting the node-sql-parser output on
"UPDATE users SET age=30 WHERE 1=1". -/
def astifyUpdate : String → Option AstResult := fun s =>
  if s = "UPDATE users SET age=30 WHERE 1=1" then some (.single updateWhereOneEqOne)
  else none

/-- Parse oracle reflecting the node-sql-parser output on "SELECT 1": a
single select syntax tree. -/
def astifySelect : String → Option AstResult := fun s =>
  if s = "SELECT 1" then some (.single { type := "select", «where» := none })
  else none

/-- A request carrying one object parameter, the scenario of the parameter
sanitizer, on the valid sql text SELECT 1. -/
def objectParamInput : QueryInput :=
  { sql := "SELECT 1", parameters := some [.obj], pageSize := none, offset := none }

/-! Helper lemmas about substring containment and the JavaScript helpers. -/

theorem string_append_empty (s : String) : s ++ "" = s := by
  cases s with
  | mk data => exact congrArg String.mk (List.append_nil data)

theorem containsStr_appRight_self (a b : String) : containsStr (a ++ b) b := by
  refine ⟨a, "", ?_⟩
  rw [string_append_empty]

theorem containsStr_appLeft (a b sub : String) (h : containsStr a sub) :
    containsStr (a ++ b) sub := by
  obtain ⟨pre, post, hsplit⟩ := h
  refine ⟨pre, post ++ b, ?_⟩
  rw [hsplit]
  simp [String.append_assoc]

theorem containsStr_appRight (a b sub : String) (h : containsStr b sub) :
    containsStr (a ++ b) sub := by
  obtain ⟨pre, post, hsplit⟩ := h
  refine ⟨a ++ pre, post, ?_⟩
  rw [hsplit]
  simp [String.append_assoc]

theorem jsOr_eq_getD (p : Option Nat) (d : Nat) (h : p ≠ some 0) :
    jsOr p d = p.getD d := by
  cases p with
  | none => rfl
  | some n =>
    simp only [jsOr, Option.getD_some]
    rw [if_neg]
    intro h0
    exact h (by rw [h0])

theorem jsTrim_empty_of_empty (s : String) (h : s = "") : jsTrim s = "" := by
  rw [h]; rfl

theorem jsFirstWord_empty_of_trim_empty (s : String) (h : jsTrim s = "") :
    jsFirstWord (jsToUpperCase (jsTrim s)) = "" := by
  rw [h]; rfl

/-- Under the routing guards, validateSqlSafety is the per-statement
validation of whatever the parser returns, and a parse failure is the
invalid-syntax rejection. -/
theorem validateSqlSafety_reaches (astify : String → Option AstResult)
    (mode : AccessMode) (s : String) (hr : reachesParse s) :
    validateSqlSafety astify mode s =
      match astify (jsTrim s) with
      | none => { isValid := false, error := some "Invalid SQL syntax - unable to parse query" }
      | some ast => validateStatements mode (toStatementList ast) := by
  obtain ⟨h1, h2, h3, h4, h5, h6⟩ := hr
  unfold validateSqlSafety
  rw [if_neg h1, if_neg h2]
  simp only [h3, h4, h5, h6]
  simp

/-- The validation loop accepts a statement list exactly when it accepts
every statement of the list. -/
theorem validateStatements_isValid_iff (mode : AccessMode) (stmts : List Statement) :
    (validateStatements mode stmts).isValid = true ↔
      ∀ st ∈ stmts, (validateStatement mode st).isValid = true := by
  induction stmts with
  | nil => simp [validateStatements]
  | cons st rest ih =>
    by_cases h : (validateStatement mode st).isValid = true
    · simp [validateStatements, h, ih]
    · simp [validateStatements, h]

/-- C2: for every SQL string whose uppercased leading word (after trimming)
is in the dangerous-operation denylist, validateSqlSafety rejects with an
error naming the operation and containing "not allowed"; the outcome is
identical for every access mode and every parse oracle, so the rejection
is decided before any parse or mode-specific rule is consulted. -/
theorem validateSqlSafety_dangerous_first_word_rejected
    (astify : String → Option AstResult) (mode : AccessMode) (s : String)
    (h : DANGEROUS_OPERATIONS.contains (jsFirstWord (jsToUpperCase (jsTrim s))) = true) :
    validateSqlSafety astify mode s =
      { isValid := false
        error := some ("Dangerous operation "
          ++ jsFirstWord (jsToUpperCase (jsTrim s)) ++ " is not allowed") } ∧
    containsStr ("Dangerous operation " ++ jsFirstWord (jsToUpperCase (jsTrim s)) ++ " is not allowed")
      (jsFirstWord (jsToUpperCase (jsTrim s))) ∧
    containsStr ("Dangerous operation " ++ jsFirstWord (jsToUpperCase (jsTrim s)) ++ " is not allowed")
      "not allowed" ∧
    (∀ (astify2 : String → Option AstResult) (mode2 : AccessMode),
      validateSqlSafety astify2 mode2 s = validateSqlSafety astify mode s) := by
  have hs : s ≠ "" := by
    intro he
    have htr := jsTrim_empty_of_empty s he
    have hfw := jsFirstWord_empty_of_trim_empty s htr
    rw [hfw] at h
    exact absurd h (by decide)
  have htrim : jsTrim s ≠ "" := by
    intro he
    have hfw := jsFirstWord_empty_of_trim_empty s he
    rw [hfw] at h
    exact absurd h (by decide)
  have key : ∀ (af : String → Option AstResult) (m : AccessMode),
      validateSqlSafety af m s =
        { isValid := false
          error := some ("Dangerous operation "
            ++ jsFirstWord (jsToUpperCase (jsTrim s)) ++ " is not allowed") } := by
    intro af m
    unfold validateSqlSafety
    rw [if_neg hs, if_neg htrim, if_pos h]
  refine ⟨key astify mode, ?_, ?_, fun astify2 mode2 => by rw [key, key]⟩
  · exact containsStr_appLeft _ " is not allowed" _
      (containsStr_appRight_self "Dangerous operation " _)
  · exact containsStr_appRight _ _ _ ⟨" is ", "", by decide⟩

/-- Witness for C2 at the concrete input "DROP TABLE users" (with a parse
oracle on which every parse fails, never consulted on this path). -/
theorem validateSqlSafety_dangerous_first_word_rejected_witness :
    validateSqlSafety parseNone .readOnly "DROP TABLE users" =
      { isValid := false, error := some "Dangerous operation DROP is not allowed" } ∧
    validateSqlSafety parseNone .readWrite "DROP TABLE users" =
      validateSqlSafety parseNone .readOnly "DROP TABLE users" := by
  have h := validateSqlSafety_dangerous_first_word_rejected parseNone .readOnly
    "DROP TABLE users" (by decide)
  refine ⟨?_, h.2.2.2 parseNone .readWrite⟩
  rw [h.1]
  decide

/-- C3 counterexample: the two-statement batch "SELECT 1; SELECT 2", which
the parser maps to an array of two select statements, is accepted by
validateSqlSafety under both access modes rather than rejected: batches are
split and each statement is validated individually, refuting the claim that
a multi-statement batch is rejected as such. -/
theorem validateSqlSafety_accepts_two_statement_batch :
    astifyBatch "SELECT 1; SELECT 2" =
      some (.multiple [{ type := "select", «where» := none },
                       { type := "select", «where» := none }]) ∧
    (toStatementList (.multiple [{ type := "select", «where» := none },
                                 { type := "select", «where» := none }])).length = 2 ∧
    validateSqlSafety astifyBatch .readOnly "SELECT 1; SELECT 2" =
      { isValid := true, error := none } ∧
    validateSqlSafety astifyBatch .readWrite "SELECT 1; SELECT 2" =
      { isValid := true, error := none } := by
  decide

/-- C3 as amended: a request whose text reaches the structural parse is not
rejected for being a multi-statement batch; the parsed statement list is
validated statement by statement, and validation succeeds exactly when every
statement of the batch individually passes. -/
theorem validateSqlSafety_validates_statements_individually
    (astify : String → Option AstResult) (mode : AccessMode) (s : String)
    (ast : AstResult) (hr : reachesParse s) (hp : astify (jsTrim s) = some ast) :
    validateSqlSafety astify mode s = validateStatements mode (toStatementList ast) ∧
    ((validateSqlSafety astify mode s).isValid = true ↔
      ∀ st ∈ toStatementList ast, (validateStatement mode st).isValid = true) := by
  have key : validateSqlSafety astify mode s = validateStatements mode (toStatementList ast) := by
    rw [validateSqlSafety_reaches astify mode s hr, hp]
  refine ⟨key, ?_⟩
  rw [key]
  exact validateStatements_isValid_iff mode (toStatementList ast)

/-- Witness for the amended C3 at the concrete batch "SELECT 1; SELECT 2". -/
theorem validateSqlSafety_validates_statements_individually_witness :
    validateSqlSafety astifyBatch .readOnly "SELECT 1; SELECT 2" =
      validateStatements .readOnly
        (toStatementList (.multiple [{ type := "select", «where» := none },
                                     { type := "select", «where» := none }])) := by
  exact (validateSqlSafety_validates_statements_individually astifyBatch .readOnly
    "SELECT 1; SELECT 2" _ (by decide) (by decide)).1

/-- C4: under read-write mode, a parseable single UPDATE or DELETE statement
is rejected with a message containing "WHERE clause" when its WHERE clause is
absent, rejected with a message containing "trivial WHERE" when its WHERE
clause matches one of the trivial shapes (boolean literal true, bare numeric
literal, equality of two identical numeric literals, of two identical
single-quoted string literals, or of two identical column references or
double-quoted identifiers, as isTrivialWhere states), and allowed when a
WHERE clause is present and matches none of those shapes. -/
theorem validateSqlSafety_update_delete_where_policy
    (astify : String → Option AstResult) (s : String) (stmt : Statement)
    (hr : reachesParse s)
    (hty : jsToUpperCase stmt.type = "UPDATE" ∨ jsToUpperCase stmt.type = "DELETE")
    (hp : astify (jsTrim s) = some (.single stmt)) :
    (stmt.«where» = none →
      (validateSqlSafety astify .readWrite s).isValid = false ∧
      ∃ e, (validateSqlSafety astify .readWrite s).error = some e ∧
        containsStr e "WHERE clause") ∧
    (∀ w, stmt.«where» = some w → isTrivialWhere w = true →
      (validateSqlSafety astify .readWrite s).isValid = false ∧
      ∃ e, (validateSqlSafety astify .readWrite s).error = some e ∧
        containsStr e "trivial WHERE") ∧
    (∀ w, stmt.«where» = some w → isTrivialWhere w = false →
      validateSqlSafety astify .readWrite s = { isValid := true, error := none }) := by
  have hdang : DANGEROUS_OPERATIONS.contains (jsToUpperCase stmt.type) = false := by
    rcases hty with hty | hty <;> rw [hty] <;> decide
  have hud : (jsToUpperCase stmt.type = "UPDATE" || jsToUpperCase stmt.type = "DELETE") = true := by
    rcases hty with hty | hty <;> rw [hty] <;> decide
  have key : validateSqlSafety astify .readWrite s =
      (if (validateStatement .readWrite stmt).isValid then
        ({ isValid := true, error := none } : ValidationResult)
       else validateStatement .readWrite stmt) := by
    rw [validateSqlSafety_reaches astify .readWrite s hr, hp]
    rfl
  have stmtBody : validateStatement .readWrite stmt =
      match stmt.«where» with
      | none =>
        { isValid := false
          error := some (jsToUpperCase stmt.type ++ " operations must include a WHERE clause") }
      | some w =>
        if isTrivialWhere w then
          { isValid := false
            error := some (jsToUpperCase stmt.type
              ++ " operations cannot use trivial WHERE clauses like WHERE 1=1 or WHERE TRUE") }
        else
          { isValid := true, error := none } := by
    unfold validateStatement
    rw [if_neg (by rw [hdang]; exact Bool.false_ne_true)]
    show (if isReadOnlyMode .readWrite = true then _ else _) = _
    rw [if_neg (by decide), if_pos hud]
  refine ⟨?_, ?_, ?_⟩
  · intro hw
    have hstmt : validateStatement .readWrite stmt =
        { isValid := false
          error := some (jsToUpperCase stmt.type
            ++ " operations must include a WHERE clause") } := by
      rw [stmtBody, hw]
    rw [key, hstmt]
    exact ⟨rfl, _, rfl,
      containsStr_appRight _ _ _ ⟨" operations must include a ", "", by decide⟩⟩
  · intro w hw htriv
    have hstmt : validateStatement .readWrite stmt =
        { isValid := false
          error := some (jsToUpperCase stmt.type
            ++ " operations cannot use trivial WHERE clauses like WHERE 1=1 or WHERE TRUE") } := by
      rw [stmtBody, hw]
      simp [htriv]
    rw [key, hstmt]
    exact ⟨rfl, _, rfl,
      containsStr_appRight _ _ _
        ⟨" operations cannot use ", " clauses like WHERE 1=1 or WHERE TRUE", by decide⟩⟩
  · intro w hw htriv
    have hstmt : validateStatement .readWrite stmt = { isValid := true, error := none } := by
      rw [stmtBody, hw]
      simp [htriv]
    rw [key, hstmt]
    rfl

/-- Witness for C4 at the concrete statement
"UPDATE users SET age=30 WHERE 1=1", whose WHERE clause is the trivial
equality of the number literal 1 with itself. -/
theorem validateSqlSafety_update_delete_where_policy_witness :
    (validateSqlSafety astifyUpdate .readWrite "UPDATE users SET age=30 WHERE 1=1").isValid
      = false ∧
    ∃ e, (validateSqlSafety astifyUpdate .readWrite
        "UPDATE users SET age=30 WHERE 1=1").error = some e ∧
      containsStr e "trivial WHERE" := by
  exact (validateSqlSafety_update_delete_where_policy astifyUpdate
      "UPDATE users SET age=30 WHERE 1=1" updateWhereOneEqOne
      (by decide) (Or.inl (by decide)) (by decide)).2.1
    (.binaryExpr "=" (.number 1) (.number 1)) rfl (by decide)

/-- C5: for every SQL string that reaches the structural parse (non-empty,
leading word neither dangerous nor EXPLAIN, MERGE or UPSERT) on which the
parser fails, validateSqlSafety rejects, under every access mode, with the
invalid-syntax error, whose text contains "Invalid SQL syntax"; the parse
failure is never treated as permissive. -/
theorem validateSqlSafety_unparseable_rejected
    (astify : String → Option AstResult) (mode : AccessMode) (s : String)
    (hr : reachesParse s) (hp : astify (jsTrim s) = none) :
    validateSqlSafety astify mode s =
      { isValid := false, error := some "Invalid SQL syntax - unable to parse query" } ∧
    containsStr "Invalid SQL syntax - unable to parse query" "Invalid SQL syntax" := by
  constructor
  · rw [validateSqlSafety_reaches astify mode s hr, hp]
  · exact ⟨"", " - unable to parse query", by rfl⟩

/-- Witness for C5 at a concrete unparseable input, under both modes. -/
theorem validateSqlSafety_unparseable_rejected_witness :
    validateSqlSafety parseNone .readOnly "SELECT * FROM oops (" =
      { isValid := false, error := some "Invalid SQL syntax - unable to parse query" } ∧
    validateSqlSafety parseNone .readWrite "SELECT * FROM oops (" =
      { isValid := false, error := some "Invalid SQL syntax - unable to parse query" } := by
  exact ⟨(validateSqlSafety_unparseable_rejected parseNone .readOnly "SELECT * FROM oops ("
      (by decide) rfl).1,
    (validateSqlSafety_unparseable_rejected parseNone .readWrite "SELECT * FROM oops ("
      (by decide) rfl).1⟩

/-- C1 counterexample: on a SQL text that already contains a limiting
clause, applyPagination reports the requested page size without capping it
at MAX_PAGE_SIZE: requesting 501 on "SELECT 1 LIMIT 5" reports 501, which
exceeds MAX_PAGE_SIZE = 500. -/
theorem applyPagination_existing_limit_uncapped_cex :
    jsIncludes (jsToUpperCase (cleanSql "SELECT 1 LIMIT 5")) "LIMIT" = true ∧
    (applyPagination "SELECT 1 LIMIT 5" (some 501) none).actualPageSize = 501 ∧
    MAX_PAGE_SIZE < (applyPagination "SELECT 1 LIMIT 5" (some 501) none).actualPageSize := by
  decide

/-- C1 as amended: the effective page size reported by applyPagination is at
most MAX_PAGE_SIZE whenever the (cleaned, uppercased) SQL text contains
neither LIMIT nor OFFSET; in the branch where the text already contains one
of them, the reported page size is the requested value (or the default when
none or zero was requested), uncapped. -/
theorem applyPagination_pageSize_cap_amended (s : String) (p o : Option Nat) :
    ((jsIncludes (jsToUpperCase (cleanSql s)) "LIMIT" = false ∧
      jsIncludes (jsToUpperCase (cleanSql s)) "OFFSET" = false) →
      (applyPagination s p o).actualPageSize ≤ MAX_PAGE_SIZE) ∧
    ((jsIncludes (jsToUpperCase (cleanSql s)) "LIMIT" = true ∨
      jsIncludes (jsToUpperCase (cleanSql s)) "OFFSET" = true) →
      (applyPagination s p o).actualPageSize = jsOr p DEFAULT_PAGE_SIZE) := by
  constructor
  · rintro ⟨hL, hO⟩
    unfold applyPagination
    rw [hL, hO, if_neg (show ¬((false || false) = true) by decide)]
    split
    · exact Nat.min_le_right _ _
    · split
      · exact Nat.min_le_right _ _
      · split
        · exact Nat.min_le_right _ _
        · exact Nat.min_le_right _ _
  · intro h
    have hcond : (jsIncludes (jsToUpperCase (cleanSql s)) "LIMIT"
        || jsIncludes (jsToUpperCase (cleanSql s)) "OFFSET") = true := by
      rcases h with h | h <;> simp [h]
    unfold applyPagination
    rw [hcond]
    rfl

/-- Witness for the amended C1: the cap holds on a SQL text without a
limiting clause even when 501 is requested, and the already-limited branch
reports the requested 7. -/
theorem applyPagination_pageSize_cap_amended_witness :
    (applyPagination "SELECT 2" (some 501) none).actualPageSize ≤ MAX_PAGE_SIZE ∧
    (applyPagination "SELECT 1 LIMIT 5" (some 7) none).actualPageSize =
      jsOr (some 7) DEFAULT_PAGE_SIZE := by
  exact ⟨(applyPagination_pageSize_cap_amended "SELECT 2" (some 501) none).1 (by decide),
    (applyPagination_pageSize_cap_amended "SELECT 1 LIMIT 5" (some 7) none).2
      (Or.inl (by decide))⟩

/-- C6 counterexample: "SELECT COUNT(*) FROM users" contains neither LIMIT
nor OFFSET, yet applyPagination appends no LIMIT clause (single-row
aggregate exception) and returns the text unchanged, refuting the claim
that every SELECT without a limiting clause gets one appended. -/
theorem applyPagination_aggregate_no_limit_cex :
    jsIncludes (jsToUpperCase (cleanSql "SELECT COUNT(*) FROM users")) "LIMIT" = false ∧
    jsIncludes (jsToUpperCase (cleanSql "SELECT COUNT(*) FROM users")) "OFFSET" = false ∧
    (applyPagination "SELECT COUNT(*) FROM users" (some 1) none).sql =
      "SELECT COUNT(*) FROM users" ∧
    (applyPagination "SELECT COUNT(*) FROM users" (some 1) none).sql ≠
      "SELECT COUNT(*) FROM users LIMIT 1" := by
  decide

/-- C6 as amended: for every SQL text containing neither LIMIT nor OFFSET
and not detected as a single-row aggregate, and every requested page size
that is not zero, applyPagination reports min(requested or default,
MAX_PAGE_SIZE) as the page size, and appends to the cleaned text a LIMIT
clause with exactly that bound, followed by an OFFSET clause exactly when
the effective offset is positive. -/
theorem applyPagination_appends_limit_amended (s : String) (p o : Option Nat)
    (hp : p ≠ some 0)
    (hL : jsIncludes (jsToUpperCase (cleanSql s)) "LIMIT" = false)
    (hO : jsIncludes (jsToUpperCase (cleanSql s)) "OFFSET" = false)
    (hA : isSingleRowAggregate (jsToUpperCase (cleanSql s)) = false) :
    (applyPagination s p o).actualPageSize =
      min (p.getD DEFAULT_PAGE_SIZE) MAX_PAGE_SIZE ∧
    (0 < jsOr o 0 →
      (applyPagination s p o).sql = cleanSql s ++ " LIMIT "
        ++ toString (min (p.getD DEFAULT_PAGE_SIZE) MAX_PAGE_SIZE)
        ++ " OFFSET " ++ toString (jsOr o 0)) ∧
    (jsOr o 0 = 0 →
      (applyPagination s p o).sql = cleanSql s ++ " LIMIT "
        ++ toString (min (p.getD DEFAULT_PAGE_SIZE) MAX_PAGE_SIZE)) := by
  have hget := jsOr_eq_getD p DEFAULT_PAGE_SIZE hp
  unfold applyPagination
  rw [hL, hO,
    if_neg (show ¬((false || false) = true) by decide),
    if_neg (show ¬(isSingleRowAggregate (jsToUpperCase (cleanSql s)) = true) by
      rw [hA]; exact Bool.false_ne_true),
    if_neg (show ¬((!AUTO_LIMIT && jsFalsy p) = true) by simp [AUTO_LIMIT]),
    hget]
  by_cases ho : 0 < jsOr o 0
  · rw [if_pos ho]
    exact ⟨rfl, fun _ => rfl, fun hz => absurd hz (by omega)⟩
  · rw [if_neg ho]
    exact ⟨rfl, fun hpos => absurd hpos ho, fun _ => rfl⟩

/-- Witness for the amended C6 at the scenario of the spec:
"SELECT * FROM users" with page size 2 and offset 0 gets LIMIT 2 appended
and no OFFSET clause, and reports page size 2. -/
theorem applyPagination_appends_limit_amended_witness :
    (applyPagination "SELECT * FROM users" (some 2) (some 0)).actualPageSize =
      min ((some 2 : Option Nat).getD DEFAULT_PAGE_SIZE) MAX_PAGE_SIZE ∧
    (applyPagination "SELECT * FROM users" (some 2) (some 0)).sql =
      cleanSql "SELECT * FROM users" ++ " LIMIT "
        ++ toString (min ((some 2 : Option Nat).getD DEFAULT_PAGE_SIZE) MAX_PAGE_SIZE) := by
  have h := applyPagination_appends_limit_amended "SELECT * FROM users" (some 2) (some 0)
    (by decide) (by decide) (by decide) (by decide)
  exact ⟨h.1, h.2.2 (by decide)⟩

/-- C7 counterexample: "SELECT 1 LIMIT 5;" already contains a limiting
clause, yet applyPagination does not return it unchanged: the trailing
semicolon is stripped. -/
theorem applyPagination_not_identity_on_semicolon :
    jsIncludes (jsToUpperCase (cleanSql "SELECT 1 LIMIT 5;")) "LIMIT" = true ∧
    (applyPagination "SELECT 1 LIMIT 5;" (some 3) (some 4)).sql = "SELECT 1 LIMIT 5" ∧
    (applyPagination "SELECT 1 LIMIT 5;" (some 3) (some 4)).sql ≠ "SELECT 1 LIMIT 5;" := by
  decide

/-- C7 as amended: when the cleaned, uppercased SQL already contains LIMIT
or OFFSET, applyPagination returns the cleaned text (the input trimmed and
with trailing semicolons stripped) for every requested page size and offset;
in particular the input is returned unchanged whenever it carries no
surrounding whitespace and no trailing semicolon. -/
theorem applyPagination_existing_limit_idempotent_amended (s : String) (p o : Option Nat)
    (h : jsIncludes (jsToUpperCase (cleanSql s)) "LIMIT" = true ∨
      jsIncludes (jsToUpperCase (cleanSql s)) "OFFSET" = true) :
    (applyPagination s p o).sql = cleanSql s ∧
    (cleanSql s = s → (applyPagination s p o).sql = s) := by
  have hcond : (jsIncludes (jsToUpperCase (cleanSql s)) "LIMIT"
      || jsIncludes (jsToUpperCase (cleanSql s)) "OFFSET") = true := by
    rcases h with h | h <;> simp [h]
  have key : (applyPagination s p o).sql = cleanSql s := by
    unfold applyPagination
    rw [hcond]
    rfl
  exact ⟨key, fun hc => by rw [key, hc]⟩

/-- Witness for the amended C7: "SELECT 1 LIMIT 5" is returned unchanged
for an arbitrary page size and offset request. -/
theorem applyPagination_existing_limit_idempotent_amended_witness :
    (applyPagination "SELECT 1 LIMIT 5" (some 7) (some 9)).sql = "SELECT 1 LIMIT 5" := by
  exact (applyPagination_existing_limit_idempotent_amended "SELECT 1 LIMIT 5"
    (some 7) (some 9) (Or.inl (by decide))).2 (by decide)

/-- C10 counterexample: the limiting-clause detection is a substring search,
so "SELECT user_limit FROM t;" (LIMIT occurring only inside an identifier)
gets no LIMIT clause appended — but the text is not returned unmodified: the
trailing semicolon is stripped. -/
theorem applyPagination_literal_limit_semicolon_cex :
    jsIncludes (jsToUpperCase (cleanSql "SELECT user_limit FROM t;")) "LIMIT" = true ∧
    (applyPagination "SELECT user_limit FROM t;" (some 50) none).sql =
      "SELECT user_limit FROM t" ∧
    (applyPagination "SELECT user_limit FROM t;" (some 50) none).sql ≠
      "SELECT user_limit FROM t;" := by
  decide

/-- C10 as amended: for every SQL text whose cleaned uppercase form contains
the character sequence LIMIT or OFFSET anywhere — also inside an identifier
or a literal — applyPagination appends nothing and returns the cleaned text
(trimmed, trailing semicolons stripped) together with the uncapped requested
or default page size and offset, for every request. -/
theorem applyPagination_substring_limit_detection_amended (s : String) (p o : Option Nat)
    (h : jsIncludes (jsToUpperCase (cleanSql s)) "LIMIT" = true ∨
      jsIncludes (jsToUpperCase (cleanSql s)) "OFFSET" = true) :
    applyPagination s p o =
      { sql := cleanSql s
        actualPageSize := jsOr p DEFAULT_PAGE_SIZE
        actualOffset := jsOr o 0 } := by
  have hcond : (jsIncludes (jsToUpperCase (cleanSql s)) "LIMIT"
      || jsIncludes (jsToUpperCase (cleanSql s)) "OFFSET") = true := by
    rcases h with h | h <;> simp [h]
  unfold applyPagination
  rw [hcond]
  rfl

/-- The sanitizer accepts a parameter list exactly when every element is a
scalar: null, boolean, finite number or string. -/
theorem validateParameters_none_iff (params : List JSValue) :
    validateParameters params = none ↔ ∀ p ∈ params, isScalarJS p = true := by
  induction params with
  | nil => simp [validateParameters]
  | cons p rest ih =>
    cases p
    case num n =>
      cases n <;>
        simp [validateParameters, isScalarJS, isJsNull, typeofIsString,
          typeofIsNumber, typeofIsBoolean, jsNumberIsFinite, ih]
    all_goals
      simp [validateParameters, isScalarJS, isJsNull, typeofIsString,
        typeofIsNumber, typeofIsBoolean, jsNumberIsFinite, ih]

/-- C8: a parameter list holding any element that is not null, not a
boolean, not a finite number and not a string makes the sanitizer return an
error, and makes queryTool reject without sending SQL to the execution
layer (when SQL validation passes, the rejection carries exactly the
sanitizer error); and the sanitizer passes exactly the lists all of whose
elements are such scalars, the empty list included. -/
theorem queryTool_rejects_nonscalar_params
    (astify : String → Option AstResult) (mode : AccessMode) (input : QueryInput) :
    ((∃ p ∈ input.parameters.getD [], isScalarJS p = false) →
      (∃ e, validateParameters (input.parameters.getD []) = some e) ∧
      isExecutePlan (queryToolPlan astify mode input) = false ∧
      ((validateSqlSafety astify mode input.sql).isValid = true →
        ∃ e, validateParameters (input.parameters.getD []) = some e ∧
          queryToolPlan astify mode input = .reject e)) ∧
    (validateParameters (input.parameters.getD []) = none ↔
      ∀ p ∈ input.parameters.getD [], isScalarJS p = true) := by
  refine ⟨?_, validateParameters_none_iff _⟩
  rintro ⟨p, hp, hps⟩
  have hsome : ∃ e, validateParameters (input.parameters.getD []) = some e := by
    cases hvp : validateParameters (input.parameters.getD []) with
    | none =>
      have hcontra := (validateParameters_none_iff _).1 hvp p hp
      rw [hps] at hcontra
      exact absurd hcontra (by decide)
    | some e => exact ⟨e, rfl⟩
  obtain ⟨e, hvp⟩ := hsome
  have hlen : 0 < (input.parameters.getD []).length :=
    List.length_pos.mpr (List.ne_nil_of_mem hp)
  by_cases hv : (validateSqlSafety astify mode input.sql).isValid = true
  · have hplan : queryToolPlan astify mode input = .reject e := by
      simp [queryToolPlan, hv, hlen, hvp]
    exact ⟨⟨e, hvp⟩, by rw [hplan]; rfl, fun _ => ⟨e, hvp, hplan⟩⟩
  · simp only [Bool.not_eq_true] at hv
    have hplan : queryToolPlan astify mode input =
        .reject ((validateSqlSafety astify mode input.sql).error.getD "") := by
      simp [queryToolPlan, hv]
    refine ⟨⟨e, hvp⟩, by rw [hplan]; rfl, fun hcontra => ?_⟩
    rw [hv] at hcontra
    exact absurd hcontra (by decide)

/-- Witness for C8 at the scenario of the spec: a single object parameter on
a valid SELECT is rejected by the sanitizer before any SQL is sent. -/
theorem queryTool_rejects_nonscalar_params_witness :
    isExecutePlan (queryToolPlan astifySelect .readOnly objectParamInput) = false ∧
    queryToolPlan astifySelect .readOnly objectParamInput =
      .reject "Invalid parameter type - only string, number, boolean, and null are allowed" := by
  have h := (queryTool_rejects_nonscalar_params astifySelect .readOnly objectParamInput).1
    ⟨.obj, by decide, by decide⟩
  refine ⟨h.2.1, ?_⟩
  obtain ⟨e, hvp, hplan⟩ := h.2.2 (by decide)
  have hval : validateParameters (objectParamInput.parameters.getD []) =
      some "Invalid parameter type - only string, number, boolean, and null are allowed" := by
    decide
  rw [hval] at hvp
  rw [hplan, Option.some.inj hvp]

/-- C9: on the read-only success path, a serialized row set strictly larger
than MAX_PAYLOAD_SIZE becomes an error outcome — carrying no rows and no
row count — whose message contains renderings of the actual and the maximum
payload size and the suggestion to reduce pageSize or add WHERE conditions;
a payload at or below the ceiling is returned unmodified with its rows and
pagination metadata. -/
theorem payload_governor_limits (payloadSize rowCount actualPageSize actualOffset : Nat) :
    (MAX_PAYLOAD_SIZE < payloadSize →
      governReadOnlyResult payloadSize rowCount actualPageSize actualOffset =
        .errorOut (payloadTooLargeMessage payloadSize) ∧
      containsStr (payloadTooLargeMessage payloadSize) (toFixed2MB payloadSize) ∧
      containsStr (payloadTooLargeMessage payloadSize) (toFixed2MB MAX_PAYLOAD_SIZE) ∧
      containsStr (payloadTooLargeMessage payloadSize) "reduce pageSize" ∧
      containsStr (payloadTooLargeMessage payloadSize) "WHERE conditions") ∧
    (payloadSize ≤ MAX_PAYLOAD_SIZE →
      governReadOnlyResult payloadSize rowCount actualPageSize actualOffset =
        .rowsOut rowCount (rowCount = actualPageSize) actualPageSize actualOffset) := by
  constructor
  · intro h
    unfold governReadOnlyResult payloadTooLargeMessage
    refine ⟨by rw [if_pos h], ?_, ?_, ?_, ?_⟩
    · exact containsStr_appLeft _ _ _ (containsStr_appLeft _ _ _
        (containsStr_appLeft _ _ _ (containsStr_appRight_self _ _)))
    · exact containsStr_appLeft _ _ _ (containsStr_appRight_self _ _)
    · exact containsStr_appRight _ _ _
        ⟨"MB). Please ", " or add more specific WHERE conditions to limit results.", by decide⟩
    · exact containsStr_appRight _ _ _
        ⟨"MB). Please reduce pageSize or add more specific ", " to limit results.", by decide⟩
  · intro h
    unfold governReadOnlyResult
    rw [if_neg (by omega)]

/-- Witness for C9: a 6 MiB payload is rejected with the message rendering
6.00 and 5.00 MB, and a 1000-byte payload with 3 rows is returned as rows. -/
theorem payload_governor_limits_witness :
    governReadOnlyResult (6 * 1024 * 1024) 3 100 0 =
      .errorOut (payloadTooLargeMessage (6 * 1024 * 1024)) ∧
    containsStr (payloadTooLargeMessage (6 * 1024 * 1024)) "6.00" ∧
    governReadOnlyResult 1000 3 100 0 = .rowsOut 3 (3 = 100) 100 0 := by
  have h6 := (payload_governor_limits (6 * 1024 * 1024) 3 100 0).1 (by decide)
  have hsmall := (payload_governor_limits 1000 3 100 0).2 (by decide)
  refine ⟨h6.1, ?_, hsmall⟩
  have hfix : toFixed2MB (6 * 1024 * 1024) = "6.00" := by decide
  exact hfix ▸ h6.2.1

/-- Witness for the amended C10 at a text whose only occurrence of LIMIT is
inside the identifier user_limit. -/
theorem applyPagination_substring_limit_detection_amended_witness :
    applyPagination "SELECT user_limit FROM t" (some 50) (some 0) =
      { sql := "SELECT user_limit FROM t"
        actualPageSize := 50
        actualOffset := 0 } := by
  rw [applyPagination_substring_limit_detection_amended "SELECT user_limit FROM t"
    (some 50) (some 0) (Or.inl (by decide))]
  decide
